import Mathlib

/-!
Verification of mediapyi's identifier-resolution / metadata-normalization
pipeline (src/api/youtube.ts) and its download route (format selection and
stream cancellation). Pure logic is embedded directly; the effectful parts
(HTTP fetch, stream destruction) are embedded by passing their outcomes as
explicit arguments and results as `Except` values.
-/

namespace Mediapyi

/-! ### URL model

The source calls the WHATWG `new URL(input)` constructor and then reads
`hostname`, `pathname` and `searchParams`. We embed a parsed URL as a record
of exactly those three observations, and model the constructor itself by
`parseURL` below. -/

structure Url where
  hostname : String
  pathname : String
  searchParams : List (String × String)
deriving Repr, DecidableEq

/-- Model of `url.searchParams.get(key)`: the value of the first pair whose
key matches, or null (`none`) when the key is absent. -/
def getSearchParam (params : List (String × String)) (key : String) : Option String :=
  match params.find? (fun p => p.1 == key) with
  | some p => some p.2
  | none => none

/-- Split a character list on every occurrence of the character `sep`
(structural recursion, so concrete inputs evaluate in the kernel). -/
def splitCharsOn (sep : Char) : List Char → List (List Char)
  | [] => [[]]
  | c :: rest =>
    if c = sep then [] :: splitCharsOn sep rest
    else
      match splitCharsOn sep rest with
      | h :: t => (c :: h) :: t
      | [] => [[c]]

/-- Hostname of an authority component: drop userinfo before the last `@`,
drop a port after `:`, lowercase (as the WHATWG constructor does). -/
def hostOfAuthority (auth : List Char) : String :=
  let afterAt := (splitCharsOn '@' auth).getLastD auth
  String.mk ((afterAt.takeWhile (fun c => c ≠ ':')).map Char.toLower)

/-- Model of `new URLSearchParams(query)`: split on `&`, skip empty pieces,
split each piece at the first `=` (a piece with no `=` gets value `""`). -/
def parseQuery (q : List Char) : List (String × String) :=
  (splitCharsOn '&' q).filterMap fun piece =>
    if piece = [] then none
    else some (String.mk (piece.takeWhile (fun c => c ≠ '=')),
               String.mk ((piece.dropWhile (fun c => c ≠ '=')).drop 1))

/-- Model of the WHATWG `new URL(input)` constructor, restricted to the
shapes this repository's inputs exercise: an absolute URL
`scheme://authority/path?query#fragment` with a non-empty alphabetic scheme
and a non-empty host. Returns `none` where the constructor would throw.
Simplifications (documented, not exercised by any claim): non-special
schemes without `//` (e.g. `mailto:`) are rejected rather than parsed with
an opaque path, and percent-decoding of query values is omitted. -/
def parseURL (s : String) : Option Url :=
  let cs := s.toList
  let scheme := cs.takeWhile (fun c => c ≠ ':')
  let rest := cs.dropWhile (fun c => c ≠ ':')
  if scheme ≠ [] && scheme.all Char.isAlpha && [':', '/', '/'].isPrefixOf rest then
    let beforeFrag := (rest.drop 3).takeWhile (fun c => c ≠ '#')
    let auth := beforeFrag.takeWhile (fun c => ¬(c = '/' || c = '?'))
    let pathQuery := beforeFrag.dropWhile (fun c => ¬(c = '/' || c = '?'))
    if auth = [] then none
    else
      let host := hostOfAuthority auth
      if host = "" then none
      else
        let path := pathQuery.takeWhile (fun c => c ≠ '?')
        let queryWithMark := pathQuery.dropWhile (fun c => c ≠ '?')
        some { hostname := host
               pathname := if path = [] then "/" else String.mk path
               searchParams := parseQuery (queryWithMark.drop 1) }
  else none

/-! ### extractVideoId (src/api/youtube.ts lines 41-75) -/

/-- Model of the test of the regular expression `^[a-zA-Z0-9_-]\x7b11\x7d$`
(both character classes are ASCII-only, as is `Char.isAlphanum`). -/
def matchesIdPattern (s : String) : Bool :=
  s.length = 11 && s.toList.all (fun c => c.isAlphanum || c = '_' || c = '-')

/-- Model of `url.pathname.split("/").filter(Boolean)`. -/
def pathSegments (pathname : String) : List String :=
  ((splitCharsOn '/' pathname.toList).map String.mk).filter (fun s => s ≠ "")

/-- Model of the `indexOf` marker lookup: `idx = parts.indexOf(marker);
idx !== -1 && parts[idx + 1] ? parts[idx + 1] : nothing`, with JS string
truthiness (`""` is falsy) on the following segment. -/
def segmentAfter (marker : String) (parts : List String) : Option String :=
  match parts.findIdx? (fun p => p == marker) with
  | none => none
  | some idx =>
    match parts.get? (idx + 1) with
    | some seg => if seg = "" then none else some seg
    | none => none

/-- Model of `const v = url.searchParams.get("v"); if (v) ...`: the
parameter value when present and non-empty (JS truthiness), else `none`. -/
def truthyParam (params : List (String × String)) (key : String) : Option String :=
  match getSearchParam params key with
  | some v => if v = "" then none else some v
  | none => none

/-- Model of `host.replace(/^www\./, "")`. -/
def stripWww (host : String) : String :=
  if ['w', 'w', 'w', '.'].isPrefixOf host.toList then String.mk (host.toList.drop 4)
  else host

/-- The watch-page host test of line 49. -/
def isWatchHost (host : String) : Bool :=
  host = "youtube.com" || host = "m.youtube.com" || host = "music.youtube.com"

/-- Body of the `try` block of `extractVideoId` after a URL has been parsed
(lines 47-70). The source's watch-host block falls through to the
`youtu.be` test when no marker matches; since the two host tests are
mutually exclusive, that early-return chain is the if/else below. -/
def extractFromUrl (url : Url) : Option String :=
  let host := stripWww url.hostname
  if isWatchHost host then
    match truthyParam url.searchParams "v" with
    | some v => some v
    | none =>
      let parts := pathSegments url.pathname
      match segmentAfter "shorts" parts with
      | some seg => some seg
      | none => segmentAfter "embed" parts
  else if host = "youtu.be" then
    match (pathSegments url.pathname).head? with
    | some p => if p = "" then none else some p
    | none => none
  else
    none

/-- `extractVideoId`, generic in the URL constructor: the pattern test
happens first; a parse failure (the constructor throwing) lands in the
`catch` branch, which re-tests the pattern (line 73). -/
def extractVideoIdWith (parse : String → Option Url) (input : String) : Option String :=
  if matchesIdPattern input then some input
  else
    match parse input with
    | some url => extractFromUrl url
    | none =>
      if matchesIdPattern input then some input else none

/-- Model of `extractVideoId` (lines 41-75). -/
def extractVideoId (input : String) : Option String :=
  extractVideoIdWith parseURL input

/-- Variant of `extractVideoId` whose catch branch returns null
unconditionally — the observably-equal program claim C10 describes. -/
def extractVideoIdCatchNull (input : String) : Option String :=
  if matchesIdPattern input then some input
  else
    match parseURL input with
    | some url => extractFromUrl url
    | none => none

/-! ### Upstream metadata client (src/api/youtube.ts lines 77-187)

Effects are embedded by passing outcomes explicitly: `fetch(url)` either
rejects (a transport fault) or produces a response, so each call site of
`fetchJSON` receives an `Except String (HttpResponse α)`; a thrown JS
`Error` is `Except.error` carrying its message. -/

/-- Value of a JS numeric expression `Number(string)` as the source uses it:
either NaN or an integer (the upstream count strings are integral). -/
inductive JsNum where
  | nan : JsNum
  | num : Int → JsNum
deriving Repr, DecidableEq

/-- Value of a non-empty all-digit character list, read in base 10. -/
def parseDecNat (cs : List Char) : Option Nat :=
  if cs ≠ [] && cs.all Char.isDigit then
    some (cs.foldl (fun a c => a * 10 + (c.toNat - 48)) 0)
  else none

/-- Signed decimal integer: an optional single sign then digits. -/
def parseDecInt (cs : List Char) : Option Int :=
  match cs with
  | '-' :: rest => (parseDecNat rest).map (fun n => -(n : Int))
  | '+' :: rest => (parseDecNat rest).map (fun n => (n : Int))
  | _ => (parseDecNat cs).map (fun n => (n : Int))

/-- Model of JS `Number(s)` on the integer-formatted strings the upstream
statistics fields carry: whitespace-trimmed; empty means 0; a decimal
integer parses; anything else is NaN (float and hex forms, which the
upstream counts never take, are not modelled). -/
def jsNumberOfString (s : String) : JsNum :=
  let t := ((s.toList.dropWhile Char.isWhitespace).reverse.dropWhile Char.isWhitespace).reverse
  if t = [] then JsNum.num 0
  else
    match parseDecInt t with
    | some n => JsNum.num n
    | none => JsNum.nan

/-- Model of the ternary `field ? Number(field) : undefined` applied to an
optional upstream string (lines 135-137 and 178-179): a missing or empty
(falsy) string yields `undefined`, anything else is coerced with `Number`. -/
def coerceStatField (s : Option String) : Option JsNum :=
  match s with
  | none => none
  | some str => if str = "" then none else some (jsNumberOfString str)

structure YoutubeThumbnail where
  url : String
  width : Option Nat
  height : Option Nat
deriving Repr, DecidableEq

structure YoutubeStatistics where
  viewCount : Option JsNum
  likeCount : Option JsNum
  commentCount : Option JsNum
deriving Repr, DecidableEq

structure YoutubeChannel where
  id : String
  title : String
  description : Option String
  thumbnails : Option (List (String × YoutubeThumbnail))
  subscriberCount : Option JsNum
  videoCount : Option JsNum
deriving Repr, DecidableEq

structure YoutubeVideo where
  id : String
  url : String
  title : String
  description : String
  publishedAt : String
  channelId : String
  channelTitle : String
  thumbnails : List (String × YoutubeThumbnail)
  duration : String
  tags : Option (List String)
  statistics : Option YoutubeStatistics
  channel : Option YoutubeChannel
deriving Repr, DecidableEq

/-- Observable part of a `fetch` response: `ok`, `status`, `statusText` and
the parsed JSON body. -/
structure HttpResponse (α : Type) where
  ok : Bool
  status : Nat
  statusText : String
  body : α
deriving Repr, DecidableEq

/-- Model of `fetchJSON` (lines 77-83): a transport fault propagates; a
non-success response throws an error embedding the status; otherwise the
parsed body is returned. -/
def fetchJSON {α : Type} (fetchResult : Except String (HttpResponse α)) : Except String α :=
  match fetchResult with
  | Except.error e => Except.error e
  | Except.ok res =>
    if !res.ok then
      Except.error ("YouTube API error: " ++ toString res.status ++ " " ++ res.statusText)
    else
      Except.ok res.body

/-- Upstream `videos.list` item statistics (string-typed, lines 110-114). -/
structure UpstreamVideoStatistics where
  viewCount : Option String
  likeCount : Option String
  commentCount : Option String
deriving Repr, DecidableEq

structure UpstreamVideoSnippet where
  publishedAt : String
  channelId : String
  title : String
  description : String
  thumbnails : Option (List (String × YoutubeThumbnail))
  tags : Option (List String)
  channelTitle : String
deriving Repr, DecidableEq

structure UpstreamContentDetails where
  duration : String
deriving Repr, DecidableEq

structure VideoItem where
  id : String
  snippet : UpstreamVideoSnippet
  contentDetails : UpstreamContentDetails
  statistics : Option UpstreamVideoStatistics
deriving Repr, DecidableEq

structure VideosResponse where
  items : List VideoItem
deriving Repr, DecidableEq

structure UpstreamChannelSnippet where
  title : String
  description : Option String
  thumbnails : Option (List (String × YoutubeThumbnail))
deriving Repr, DecidableEq

structure UpstreamChannelStatistics where
  subscriberCount : Option String
  videoCount : Option String
deriving Repr, DecidableEq

structure ChannelItem where
  id : String
  snippet : UpstreamChannelSnippet
  statistics : Option UpstreamChannelStatistics
deriving Repr, DecidableEq

structure ChannelsResponse where
  items : List ChannelItem
deriving Repr, DecidableEq

/-- Model of `getChannelById` (lines 153-181), taking the outcome of the
channels-endpoint fetch; `Except.ok none` models returning `undefined`. -/
def getChannelById (channelFetch : Except String (HttpResponse ChannelsResponse)) :
    Except String (Option YoutubeChannel) :=
  match fetchJSON channelFetch with
  | Except.error e => Except.error e
  | Except.ok data =>
    match data.items.head? with
    | none => Except.ok none
    | some item =>
      Except.ok (some
        { id := item.id
          title := item.snippet.title
          description := item.snippet.description
          thumbnails := item.snippet.thumbnails
          subscriberCount :=
            coerceStatField (item.statistics.bind (fun st => st.subscriberCount))
          videoCount :=
            coerceStatField (item.statistics.bind (fun st => st.videoCount)) })

/-- The `base` record getVideoById builds from the video item before the
channel enrichment (lines 122-140). -/
def baseVideoOf (item : VideoItem) : YoutubeVideo :=
  { id := item.id
    url := "https://www.youtube.com/watch?v=" ++ item.id
    title := item.snippet.title
    description := item.snippet.description
    publishedAt := item.snippet.publishedAt
    channelId := item.snippet.channelId
    channelTitle := item.snippet.channelTitle
    thumbnails := item.snippet.thumbnails.getD []
    duration := item.contentDetails.duration
    tags := item.snippet.tags
    statistics := item.statistics.map (fun st =>
      { viewCount := coerceStatField st.viewCount
        likeCount := coerceStatField st.likeCount
        commentCount := coerceStatField st.commentCount })
    channel := none }

/-- Model of `getVideoById` (lines 85-151), taking the API key from the
environment and the outcomes of the two upstream fetches. The channel
enrichment is the `try { ... } catch { /- Non-fatal -/ }` of lines 142-148:
a fault from `getChannelById` is discarded and `base` returned as-is. -/
def getVideoById (apiKey : Option String)
    (videoFetch : Except String (HttpResponse VideosResponse))
    (channelFetch : Except String (HttpResponse ChannelsResponse)) :
    Except String (Option YoutubeVideo) :=
  match apiKey with
  | none => Except.error "Missing YOUTUBE_DATA_API_KEY in environment"
  | some _ =>
    match fetchJSON videoFetch with
    | Except.error e => Except.error e
    | Except.ok data =>
      match data.items.head? with
      | none => Except.ok none
      | some item =>
        let base := baseVideoOf item
        match getChannelById channelFetch with
        | Except.ok (some channel) => Except.ok (some { base with channel := some channel })
        | Except.ok none => Except.ok (some base)
        | Except.error _ => Except.ok (some base)

/-- Model of `getVideoByInput` (lines 183-187). The real function builds the
fetch URLs from the extracted id; here the fetch outcomes are supplied as
the environment, and an extraction failure returns null before either fetch
outcome is inspected. -/
def getVideoByInput (apiKey : Option String)
    (videoFetch : Except String (HttpResponse VideosResponse))
    (channelFetch : Except String (HttpResponse ChannelsResponse))
    (input : String) : Except String (Option YoutubeVideo) :=
  match extractVideoId input with
  | none => Except.ok none
  | some _ => getVideoById apiKey videoFetch channelFetch

/-! ### Download route: format selection (src/app/api/youtube/download/route.ts)

The route filters `info.formats` by track flags and answers a 422 JSON
error when the filtered list is empty, before any stream is opened. -/

structure VideoFormat where
  hasAudio : Bool
  hasVideo : Bool
  mimeType : Option String
deriving Repr, DecidableEq

/-- Filter of the audio branch (line 54): `info.formats.filter(f => f.hasAudio)`. -/
def audioFormatCandidates (formats : List VideoFormat) : List VideoFormat :=
  formats.filter (fun f => f.hasAudio)

/-- Filter of the muxed branch (line 97): `info.formats.filter(f => f.hasAudio && f.hasVideo)`. -/
def muxedFormatCandidates (formats : List VideoFormat) : List VideoFormat :=
  formats.filter (fun f => f.hasAudio && f.hasVideo)

structure ErrorBody where
  status : Nat
  error : String
deriving Repr, DecidableEq

/-- Outcome of the selection step of a download branch: a JSON error
response, or the non-empty candidate list the branch goes on to stream. -/
inductive SelectionResult where
  | rejected (resp : ErrorBody)
  | selected (candidates : List VideoFormat)
deriving Repr, DecidableEq

/-- Model of lines 54-57: fail with 422 when no format has audio. -/
def audioSelection (formats : List VideoFormat) : SelectionResult :=
  let candidates := audioFormatCandidates formats
  if candidates.length = 0 then
    SelectionResult.rejected { status := 422, error := "No audio formats found for this video." }
  else
    SelectionResult.selected candidates

/-- Model of lines 97-100: fail with 422 when no format has both tracks. -/
def muxedSelection (formats : List VideoFormat) : SelectionResult :=
  let candidates := muxedFormatCandidates formats
  if candidates.length = 0 then
    SelectionResult.rejected { status := 422, error := "No matching muxed formats found for this video." }
  else
    SelectionResult.selected candidates

/-! ### Download route: audio stream cancellation (route.ts lines 77-84)

The `cancel()` handler of the audio `ReadableStream` runs
`try { ffStream.destroy() } catch {}` then `try { source.destroy() } catch {}`.
A destroy call is embedded as a state update recording that the call was
made, paired with an `Except` for whether it threw; `tryIgnore` is the
empty catch block. -/

structure AudioPipelineState where
  ffDestroyCalled : Bool
  sourceDestroyCalled : Bool
deriving Repr, DecidableEq

/-- Model of `ffStream.destroy()`: records the call; throws when the double
is configured to throw. -/
def ffStreamDestroy (ffThrows : Bool) (s : AudioPipelineState) :
    AudioPipelineState × Except String Unit :=
  ({ s with ffDestroyCalled := true },
   if ffThrows then Except.error "destroy failed" else Except.ok ())

/-- Model of `source.destroy()`: records the call; throws when the double is
configured to throw. -/
def sourceDestroy (sourceThrows : Bool) (s : AudioPipelineState) :
    AudioPipelineState × Except String Unit :=
  ({ s with sourceDestroyCalled := true },
   if sourceThrows then Except.error "destroy failed" else Except.ok ())

/-- Model of `try { ... } catch {}`: the state changes survive, any thrown
error is swallowed. -/
def tryIgnore (r : AudioPipelineState × Except String Unit) : AudioPipelineState :=
  r.1

/-- Model of the audio stream `cancel()` handler (lines 77-84). -/
def cancelAudioPipeline (ffThrows sourceThrows : Bool) (s : AudioPipelineState) :
    AudioPipelineState :=
  let s1 := tryIgnore (ffStreamDestroy ffThrows s)
  tryIgnore (sourceDestroy sourceThrows s1)

/-! ### Concrete fixtures used by witnesses -/

def demoThumb : YoutubeThumbnail :=
  { url := "https://i.ytimg.com/vi/dQw4w9WgXcQ/default.jpg", width := some 120, height := some 90 }

def demoStats : UpstreamVideoStatistics :=
  { viewCount := some "123", likeCount := some "", commentCount := none }

def demoItem : VideoItem :=
  { id := "dQw4w9WgXcQ"
    snippet :=
      { publishedAt := "2009-10-25T06:57:33Z"
        channelId := "UCuAXFkgsw1L7xaCfnd5JJOw"
        title := "Demo title"
        description := "Demo description"
        thumbnails := some [("default", demoThumb)]
        tags := some ["demo"]
        channelTitle := "Demo channel" }
    contentDetails := { duration := "PT3M33S" }
    statistics := some demoStats }

def demoVideosResp : HttpResponse VideosResponse :=
  { ok := true, status := 200, statusText := "OK", body := { items := [demoItem] } }

def demoEmptyVideosResp : HttpResponse VideosResponse :=
  { ok := true, status := 200, statusText := "OK", body := { items := [] } }

def demoBadResp : HttpResponse VideosResponse :=
  { ok := false, status := 403, statusText := "Forbidden", body := { items := [] } }

def demoWatchUrl : Url :=
  { hostname := "www.youtube.com"
    pathname := "/shorts/AAAAAAAAAAA"
    searchParams := [("v", "dQw4w9WgXcQ")] }

/-! ### Theorems -/

/-- Evaluation of `getVideoById` on a successful video response with an
empty items list. -/
theorem getVideoById_nil (k : String) (vresp : HttpResponse VideosResponse)
    (channelFetch : Except String (HttpResponse ChannelsResponse))
    (hok : vresp.ok = true) (hitems : vresp.body.items = []) :
    getVideoById (some k) (Except.ok vresp) channelFetch = Except.ok none := by
  unfold getVideoById
  simp [fetchJSON, hok, hitems]

/-- Evaluation of `getVideoById` on a successful video response whose first
item is `item`, when the channel fetch faults. -/
theorem getVideoById_channel_error_eq (k e : String) (vresp : HttpResponse VideosResponse)
    (channelFetch : Except String (HttpResponse ChannelsResponse))
    (item : VideoItem) (rest : List VideoItem)
    (hok : vresp.ok = true) (hitems : vresp.body.items = item :: rest)
    (hch : getChannelById channelFetch = Except.error e) :
    getVideoById (some k) (Except.ok vresp) channelFetch =
      Except.ok (some (baseVideoOf item)) := by
  unfold getVideoById
  simp [fetchJSON, hok, hitems, hch]

/-- Evaluation of `getVideoById` when the channel lookup returns no item. -/
theorem getVideoById_channel_none_eq (k : String) (vresp : HttpResponse VideosResponse)
    (channelFetch : Except String (HttpResponse ChannelsResponse))
    (item : VideoItem) (rest : List VideoItem)
    (hok : vresp.ok = true) (hitems : vresp.body.items = item :: rest)
    (hch : getChannelById channelFetch = Except.ok none) :
    getVideoById (some k) (Except.ok vresp) channelFetch =
      Except.ok (some (baseVideoOf item)) := by
  unfold getVideoById
  simp [fetchJSON, hok, hitems, hch]

/-- Evaluation of `getVideoById` when the channel lookup succeeds. -/
theorem getVideoById_channel_some_eq (k : String) (c : YoutubeChannel)
    (vresp : HttpResponse VideosResponse)
    (channelFetch : Except String (HttpResponse ChannelsResponse))
    (item : VideoItem) (rest : List VideoItem)
    (hok : vresp.ok = true) (hitems : vresp.body.items = item :: rest)
    (hch : getChannelById channelFetch = Except.ok (some c)) :
    getVideoById (some k) (Except.ok vresp) channelFetch =
      Except.ok (some { baseVideoOf item with channel := some c }) := by
  unfold getVideoById
  simp [fetchJSON, hok, hitems, hch]

/-- C3: for every string matching the 11-character ID pattern,
`extractVideoId` returns it unchanged; the pattern check precedes URL
parsing, so the result holds for every URL constructor `parse` — such a
string is never routed into the URL-parsing branch. -/
theorem extract_id_verbatim (parse : String → Option Url) (s : String)
    (h : matchesIdPattern s = true) :
    extractVideoIdWith parse s = some s ∧ extractVideoId s = some s := by
  constructor <;> simp [extractVideoIdWith, extractVideoId, h]

/-- Witness for `extract_id_verbatim` at a concrete 11-character ID. -/
theorem extract_id_verbatim_witness :
    matchesIdPattern "dQw4w9WgXcQ" = true ∧
    extractVideoId "dQw4w9WgXcQ" = some "dQw4w9WgXcQ" :=
  ⟨by decide, (extract_id_verbatim parseURL "dQw4w9WgXcQ" (by decide)).2⟩

/-- C4: on a URL whose host (after stripping `www.`) is a watch-page host,
the markers are applied in fixed priority order: a non-empty `v` query
parameter wins; with `v` absent the segment after `shorts` wins; with both
absent the result is the segment after `embed`. -/
theorem watch_host_marker_priority (u : Url)
    (hw : isWatchHost (stripWww u.hostname) = true) :
    (∀ v, truthyParam u.searchParams "v" = some v → extractFromUrl u = some v) ∧
    (truthyParam u.searchParams "v" = none →
      ∀ s, segmentAfter "shorts" (pathSegments u.pathname) = some s →
        extractFromUrl u = some s) ∧
    (truthyParam u.searchParams "v" = none →
      segmentAfter "shorts" (pathSegments u.pathname) = none →
      extractFromUrl u = segmentAfter "embed" (pathSegments u.pathname)) := by
  refine ⟨?_, ?_, ?_⟩
  · intro v hv
    simp [extractFromUrl, hw, hv]
  · intro hv s hs
    simp [extractFromUrl, hw, hv, hs]
  · intro hv hs
    simp [extractFromUrl, hw, hv, hs]

/-- Witness for `watch_host_marker_priority`: a URL carrying both a `v`
parameter and a `shorts` segment yields the `v` value. -/
theorem watch_host_marker_priority_witness :
    isWatchHost (stripWww demoWatchUrl.hostname) = true ∧
    extractFromUrl demoWatchUrl = some "dQw4w9WgXcQ" :=
  ⟨by decide,
   (watch_host_marker_priority demoWatchUrl (by decide)).1 "dQw4w9WgXcQ" (by decide)⟩

/-- C1 as stated is false: a `v` query-parameter value is returned without
being validated against the 11-character pattern, so a 3-character value
flows past the extractor. -/
theorem extract_unvalidated_counterexample :
    extractVideoId "https://youtube.com/watch?v=abc" = some "abc" ∧
    matchesIdPattern "abc" = false := by
  decide

/-- C1 amended: every non-null result of `extractVideoId` either matches
the 11-character pattern (the raw-ID branches return the input only when it
matches) or was extracted verbatim from a parsed URL's markers, without
pattern validation. -/
theorem extract_nonnull_id_or_url_marker (s v : String)
    (h : extractVideoId s = some v) :
    matchesIdPattern v = true ∨
      ∃ u, parseURL s = some u ∧ extractFromUrl u = some v := by
  unfold extractVideoId extractVideoIdWith at h
  by_cases hid : matchesIdPattern s
  · simp only [hid, if_true, Option.some.injEq] at h
    subst h
    exact Or.inl hid
  · simp only [hid, if_false, Bool.false_eq_true] at h
    cases hp : parseURL s with
    | none =>
      rw [hp] at h
      simp at h
    | some u =>
      rw [hp] at h
      exact Or.inr ⟨u, rfl, h⟩

/-- Witness for `extract_nonnull_id_or_url_marker` at a URL input. -/
theorem extract_nonnull_id_or_url_marker_witness :
    matchesIdPattern "abc" = true ∨
      ∃ u, parseURL "https://youtube.com/watch?v=abc" = some u ∧
        extractFromUrl u = some "abc" :=
  extract_nonnull_id_or_url_marker "https://youtube.com/watch?v=abc" "abc" (by decide)

/-- C9: `extractVideoId` is a total function into `Option String` (the URL
constructor's throw is confined to the modelled parse result), and on an
input that neither matches the ID pattern nor parses as a URL it returns
null; `getVideoByInput` then returns null without the outcome of either
upstream fetch being consulted. -/
theorem extract_nonurl_nonid_null (s : String) (apiKey : Option String)
    (videoFetch : Except String (HttpResponse VideosResponse))
    (channelFetch : Except String (HttpResponse ChannelsResponse))
    (hid : matchesIdPattern s = false) (hp : parseURL s = none) :
    extractVideoId s = none ∧
    getVideoByInput apiKey videoFetch channelFetch s = Except.ok none := by
  have h1 : extractVideoId s = none := by
    unfold extractVideoId extractVideoIdWith
    simp [hid, hp]
  refine ⟨h1, ?_⟩
  unfold getVideoByInput
  rw [h1]

/-- Witness for `extract_nonurl_nonid_null` at a non-URL, non-ID string,
with fetch outcomes that would fault if consulted. -/
theorem extract_nonurl_nonid_null_witness :
    extractVideoId "not a url" = none ∧
    getVideoByInput (some "key") (Except.ok demoBadResp) (Except.error "boom")
      "not a url" = Except.ok none :=
  extract_nonurl_nonid_null "not a url" (some "key") (Except.ok demoBadResp)
    (Except.error "boom") (by decide) (by decide)

/-- C10: the pattern re-test in the catch branch never succeeds — an input
reaches the catch only after failing the identical test at the top — so
`extractVideoId` is observably equal to the variant whose catch branch
returns null unconditionally. -/
theorem catch_retest_never_succeeds (s : String) :
    extractVideoId s = extractVideoIdCatchNull s := by
  unfold extractVideoId extractVideoIdWith extractVideoIdCatchNull
  by_cases hid : matchesIdPattern s
  · simp [hid]
  · cases hp : parseURL s <;> simp [hid, hp]

/-- C2: when ID extraction and the video fetch succeed but the channel
fetch faults, the video is still returned, with `channel` absent and
`channelId`/`channelTitle` taken from the video record itself. -/
theorem resolve_channel_fault_nonfatal (input k idv e : String)
    (vresp : HttpResponse VideosResponse)
    (channelFetch : Except String (HttpResponse ChannelsResponse))
    (item : VideoItem) (rest : List VideoItem)
    (hex : extractVideoId input = some idv)
    (hok : vresp.ok = true)
    (hitems : vresp.body.items = item :: rest)
    (hch : getChannelById channelFetch = Except.error e) :
    ∃ v : YoutubeVideo,
      getVideoByInput (some k) (Except.ok vresp) channelFetch input =
        Except.ok (some v) ∧
      v.channel = none ∧
      v.channelId = item.snippet.channelId ∧
      v.channelTitle = item.snippet.channelTitle := by
  unfold getVideoByInput
  rw [hex, getVideoById_channel_error_eq k e vresp channelFetch item rest hok hitems hch]
  exact ⟨baseVideoOf item, rfl, rfl, rfl, rfl⟩

/-- Witness for `resolve_channel_fault_nonfatal` on concrete fixtures. -/
theorem resolve_channel_fault_nonfatal_witness :
    ∃ v : YoutubeVideo,
      getVideoByInput (some "key") (Except.ok demoVideosResp) (Except.error "boom")
        "dQw4w9WgXcQ" = Except.ok (some v) ∧
      v.channel = none ∧
      v.channelId = demoItem.snippet.channelId ∧
      v.channelTitle = demoItem.snippet.channelTitle :=
  resolve_channel_fault_nonfatal "dQw4w9WgXcQ" "key" "dQw4w9WgXcQ" "boom"
    demoVideosResp (Except.error "boom") demoItem [] (by decide) rfl rfl rfl

/-- C5: each numeric statistics field of the produced video is the coercion
of the upstream string: missing or empty maps to absent, while the string
"0" maps to present-and-zero, so unknown and zero stay distinguishable. -/
theorem stats_coercion (k : String)
    (vresp : HttpResponse VideosResponse)
    (channelFetch : Except String (HttpResponse ChannelsResponse))
    (item : VideoItem) (rest : List VideoItem) (st : UpstreamVideoStatistics)
    (hok : vresp.ok = true)
    (hitems : vresp.body.items = item :: rest)
    (hstats : item.statistics = some st) :
    (∃ v : YoutubeVideo,
       getVideoById (some k) (Except.ok vresp) channelFetch = Except.ok (some v) ∧
       v.statistics = some
         { viewCount := coerceStatField st.viewCount
           likeCount := coerceStatField st.likeCount
           commentCount := coerceStatField st.commentCount }) ∧
    coerceStatField none = none ∧
    coerceStatField (some "") = none ∧
    coerceStatField (some "0") = some (JsNum.num 0) := by
  refine ⟨?_, rfl, rfl, by decide⟩
  cases hch : getChannelById channelFetch with
  | error e =>
    rw [getVideoById_channel_error_eq k e vresp channelFetch item rest hok hitems hch]
    exact ⟨baseVideoOf item, rfl, by simp [baseVideoOf, hstats]⟩
  | ok och =>
    cases och with
    | none =>
      rw [getVideoById_channel_none_eq k vresp channelFetch item rest hok hitems hch]
      exact ⟨baseVideoOf item, rfl, by simp [baseVideoOf, hstats]⟩
    | some c =>
      rw [getVideoById_channel_some_eq k c vresp channelFetch item rest hok hitems hch]
      exact ⟨{ baseVideoOf item with channel := some c }, rfl, by simp [baseVideoOf, hstats]⟩

/-- Witness for `stats_coercion` on concrete fixtures whose statistics
carry a populated, an empty and a missing field. -/
theorem stats_coercion_witness :
    (∃ v : YoutubeVideo,
       getVideoById (some "key") (Except.ok demoVideosResp) (Except.error "boom") =
         Except.ok (some v) ∧
       v.statistics = some
         { viewCount := coerceStatField demoStats.viewCount
           likeCount := coerceStatField demoStats.likeCount
           commentCount := coerceStatField demoStats.commentCount }) ∧
    coerceStatField none = none ∧
    coerceStatField (some "") = none ∧
    coerceStatField (some "0") = some (JsNum.num 0) :=
  stats_coercion "key" demoVideosResp (Except.error "boom") demoItem [] demoStats
    rfl rfl rfl

/-- C6: `fetchJSON` on a delivered response faults exactly when the status
is non-success, with the status embedded in the message, and succeeds with
the body otherwise; a successful video response with an empty items list
makes `getVideoById` return null (a normal not-found, not a fault), and
null arises only that way. -/
theorem fetch_fault_iff_and_empty_items_null {α : Type} (resp : HttpResponse α)
    (k : String) (vresp : HttpResponse VideosResponse)
    (channelFetch : Except String (HttpResponse ChannelsResponse))
    (hok : vresp.ok = true) :
    (resp.ok = false →
      fetchJSON (Except.ok resp) =
        Except.error ("YouTube API error: " ++ toString resp.status ++ " " ++ resp.statusText)) ∧
    (resp.ok = true → fetchJSON (Except.ok resp) = Except.ok resp.body) ∧
    (getVideoById (some k) (Except.ok vresp) channelFetch = Except.ok none ↔
      vresp.body.items = []) := by
  refine ⟨?_, ?_, ?_⟩
  · intro h
    simp [fetchJSON, h]
  · intro h
    simp [fetchJSON, h]
  · constructor
    · intro h
      cases hi : vresp.body.items with
      | nil => rfl
      | cons item rest =>
        exfalso
        cases hch : getChannelById channelFetch with
        | error e =>
          rw [getVideoById_channel_error_eq k e vresp channelFetch item rest hok hi hch] at h
          simp at h
        | ok och =>
          cases och with
          | none =>
            rw [getVideoById_channel_none_eq k vresp channelFetch item rest hok hi hch] at h
            simp at h
          | some c =>
            rw [getVideoById_channel_some_eq k c vresp channelFetch item rest hok hi hch] at h
            simp at h
    · intro h
      exact getVideoById_nil k vresp channelFetch hok h

/-- Witness for `fetch_fault_iff_and_empty_items_null`: a 403 upstream
response faults with the status in the message, and an empty items list
yields null. -/
theorem fetch_fault_iff_and_empty_items_null_witness :
    (fetchJSON (Except.ok demoBadResp) =
      Except.error ("YouTube API error: " ++ toString demoBadResp.status ++ " " ++
        demoBadResp.statusText)) ∧
    (getVideoById (some "key") (Except.ok demoEmptyVideosResp) (Except.error "boom") =
        Except.ok none ↔
      demoEmptyVideosResp.body.items = []) := by
  have h := fetch_fault_iff_and_empty_items_null demoBadResp "key" demoEmptyVideosResp
    (Except.error "boom") rfl
  exact ⟨h.1 rfl, h.2.2⟩

/-- C7: muxed selection filters to formats with both tracks, audio-only
selection filters to formats with audio, and each branch answers the 422
"no candidates" error exactly when its filtered set is empty. -/
theorem format_selection_filters_and_422 (formats : List VideoFormat) :
    (∀ f, f ∈ muxedFormatCandidates formats ↔
        f ∈ formats ∧ f.hasAudio = true ∧ f.hasVideo = true) ∧
    (∀ f, f ∈ audioFormatCandidates formats ↔ f ∈ formats ∧ f.hasAudio = true) ∧
    (audioSelection formats =
        SelectionResult.rejected
          { status := 422, error := "No audio formats found for this video." } ↔
      audioFormatCandidates formats = []) ∧
    (muxedSelection formats =
        SelectionResult.rejected
          { status := 422, error := "No matching muxed formats found for this video." } ↔
      muxedFormatCandidates formats = []) := by
  refine ⟨?_, ?_, ?_, ?_⟩
  · intro f
    simp [muxedFormatCandidates, List.mem_filter]
  · intro f
    simp [audioFormatCandidates, List.mem_filter]
  · simp only [audioSelection]
    cases h : audioFormatCandidates formats <;> simp [h]
  · simp only [muxedSelection]
    cases h : muxedFormatCandidates formats <;> simp [h]

/-- C8: the audio stream's cancel handler invokes destroy on both the
transcoder output stream and the upstream source stream, for every
combination of the two destroy calls throwing or not — a throw from the
first (caught by its own try/catch) does not prevent the second. -/
theorem cancel_destroys_both (ffThrows sourceThrows : Bool) (s : AudioPipelineState) :
    (cancelAudioPipeline ffThrows sourceThrows s).ffDestroyCalled = true ∧
    (cancelAudioPipeline ffThrows sourceThrows s).sourceDestroyCalled = true := by
  simp [cancelAudioPipeline, tryIgnore, ffStreamDestroy, sourceDestroy]

end Mediapyi
